import Mathlib

/-!
Shallow embedding of `gios-api-wrapper` (src/utils.py and src/models.py).

The repository fetches paginated air-quality station and installation data
from the GIOS REST API.  We model:

* JSON documents as an inductive `JSON` type (numbers as rationals; the code
  performs no arithmetic on them, it only moves values around);
* Python exceptions as `PyExc` — the distinction between exception classes
  matters because `models.py` catches `requests.exceptions.HTTPError` and
  `KeyError` selectively while `utils.py` raises a plain `Exception`;
* `fetch_data` (utils.py) as a function of a response oracle
  `Nat → Response` (the response the endpoint gives to the n-th GET of this
  call), returning the result together with the total backoff wait and the
  number of GET attempts issued;
* `Station.get_installations` and `get_stations` (models.py) as functions of
  page-fetch oracles `Nat → Except PyExc JSON` (page index ↦ outcome of
  `fetch_data` for that page's URL).  Since each `asyncio.create_task` body
  here contains no internal awaits, tasks complete in creation order and
  `asyncio.gather` returns results in task order, so the cooperative
  concurrency collapses to the sequential semantics modelled below.
  `print` calls are diagnostics only and are not modelled.
-/

/-- A JSON value as handled by the Python code.  Numbers are modelled as
rationals; the parsers copy them without arithmetic. -/
inductive JSON where
  | dict (entries : List (String × JSON))
  | arr (items : List JSON)
  | str (s : String)
  | num (q : Rat)
  | bool (b : Bool)
  | null

/-- The Python exception classes that the code distinguishes.
`httpError` is `requests.exceptions.HTTPError` (imported in models.py),
`exc` is a plain `Exception` (what `fetch_data` raises). -/
inductive PyExc where
  | httpError (msg : String)
  | keyError (k : String)
  | typeError (msg : String)
  | valueError (msg : String)
  | exc (msg : String)
deriving DecidableEq

/-- First-match association-list lookup, modelling `d[key]` on a Python dict
(keys are unique in a Python dict, so first match is the match). -/
def lookupKey : List (String × JSON) → String → Option JSON
  | [], _ => none
  | (k, v) :: rest, key => if k = key then some v else lookupKey rest key

/-- `j[key]` in Python: on a dict, a missing key raises `KeyError`;
subscripting a non-dict value with a string key raises `TypeError`. -/
def pySubscript (j : JSON) (key : String) : Except PyExc JSON :=
  match j with
  | .dict es =>
    match lookupKey es key with
    | some v => .ok v
    | none => .error (.keyError key)
  | _ => .error (.typeError "value is not subscriptable by string")

/-- Whether a JSON value is a dict (`isinstance(x, dict)`). -/
def JSON.isDict : JSON → Bool
  | .dict _ => true
  | _ => false

/-- `Installation` dataclass (models.py).  Python dataclass fields are
dynamically typed: the parser assigns whatever JSON value sits under the
raw key, so fields are modelled as `JSON` values. -/
structure Installation where
  id : JSON
  param_name : JSON
  param_formula : JSON
  param_code : JSON
  param_id : JSON

/-- `Station` dataclass (models.py).  `city` is the dict literal built by
`create_stations`; `installations` defaults to `[]`. -/
structure Station where
  id : JSON
  code : JSON
  name : JSON
  latitude : JSON
  longitude : JSON
  city : JSON
  address_street : JSON
  installations : List Installation := []

/-- The body of the `try` block in `create_installations`: builds one
`Installation` from one raw record; lookups happen in Python argument
order, so the first missing key is the one raised. -/
def parseInstallation (data : JSON) : Except PyExc Installation := do
  let i ← pySubscript data "Identyfikator stanowiska"
  let pn ← pySubscript data "Wskaźnik"
  let pf ← pySubscript data "Wskaźnik - wzór"
  let pc ← pySubscript data "Wskaźnik - kod"
  let pid ← pySubscript data "Id wskaźnika"
  pure ⟨i, pn, pf, pc, pid⟩

/-- The record loop of `create_installations`: `except KeyError` skips the
record (after logging); any other exception propagates. -/
def buildInstallations : List JSON → Except PyExc (List Installation)
  | [] => .ok []
  | d :: rest =>
    match parseInstallation d with
    | .ok i => (buildInstallations rest).map (fun l => i :: l)
    | .error (.keyError _) => buildInstallations rest
    | .error e => .error e

/-- Iterating a JSON value with a Python `for` loop: lists iterate their
items, dicts their keys, strings their characters; other values raise
`TypeError`. -/
def pyIter : JSON → Except PyExc (List JSON)
  | .arr xs => .ok xs
  | .dict es => .ok (es.map fun e => .str e.1)
  | .str s => .ok (s.toList.map fun c => .str (String.mk [c]))
  | _ => .error (.typeError "value is not iterable")

/-- `create_installations(installation_data)` (models.py): rejects non-dict
input with `ValueError`, extracts the record list (an uncaught `KeyError`
if absent), and builds installations skipping records with missing keys. -/
def create_installations (installation_data : JSON) : Except PyExc (List Installation) :=
  if installation_data.isDict then do
    let lst ← pySubscript installation_data "Lista stanowisk pomiarowych dla podanej stacji"
    let items ← pyIter lst
    buildInstallations items
  else .error (.valueError "Data must be a dictionary/json")

/-- The body of the `try` block in `create_stations`: builds one `Station`
from one raw record, including the `city` dict literal; lookups happen in
Python evaluation order. -/
def parseStation (data : JSON) : Except PyExc Station := do
  let i ← pySubscript data "Identyfikator stacji"
  let code ← pySubscript data "Kod stacji"
  let nm ← pySubscript data "Nazwa stacji"
  let lat ← pySubscript data "WGS84 φ N"
  let lon ← pySubscript data "WGS84 λ E"
  let cityName ← pySubscript data "Nazwa miasta"
  let cityId ← pySubscript data "Identyfikator miasta"
  let commune ← pySubscript data "Gmina"
  let district ← pySubscript data "Powiat"
  let province ← pySubscript data "Województwo"
  let street ← pySubscript data "Ulica"
  pure { id := i, code := code, name := nm, latitude := lat, longitude := lon,
         city := .dict [("name", cityName), ("city_id", cityId), ("commune", commune),
                        ("district", district), ("province", province)],
         address_street := street }

/-- The record loop of `create_stations`: `except KeyError` skips the
record (after logging); any other exception propagates. -/
def buildStations : List JSON → Except PyExc (List Station)
  | [] => .ok []
  | d :: rest =>
    match parseStation d with
    | .ok s => (buildStations rest).map (fun l => s :: l)
    | .error (.keyError _) => buildStations rest
    | .error e => .error e

/-- `create_stations(station_data)` (models.py). -/
def create_stations (station_data : JSON) : Except PyExc (List Station) :=
  if station_data.isDict then do
    let lst ← pySubscript station_data "Lista stacji pomiarowych"
    let items ← pyIter lst
    buildStations items
  else .error (.valueError "Data must be a dictionary/json")

/-- What the HTTP endpoint does on one GET during `fetch_data` (utils.py):
a 429 rate-limit status, some other error status (anything
`response.raise_for_status()` raises on, or a transport/decode error —
all of which `fetch_data` converts to the same terminal failure), or a
success carrying the decoded JSON body. -/
inductive Response where
  | rateLimited
  | errorStatus
  | success (body : JSON)

/-- The retry loop of `fetch_data`: `resp n` is the endpoint's response to
the n-th GET issued by this call (the loop makes exactly one GET per
iteration and only a 429 continues it, so the iteration count equals
`retry_count` at loop entry).  Returns the outcome, the total time slept
in backoff, and the number of GETs issued.  On a 429 the wait time
doubles; on any other error the loop breaks and the function raises
`Exception("Failed to fetch data")`; exhausting `max_retries` raises the
same exception. -/
def fetchGo (resp : Nat → Response) (maxRetries retryCount waitTime totalWait attempts : Nat) :
    Except PyExc JSON × Nat × Nat :=
  if retryCount < maxRetries then
    match resp retryCount with
    | .rateLimited =>
        fetchGo resp maxRetries (retryCount + 1) (waitTime * 2) (totalWait + waitTime) (attempts + 1)
    | .errorStatus => (.error (.exc "Failed to fetch data"), totalWait, attempts + 1)
    | .success b => (.ok b, totalWait, attempts + 1)
  else (.error (.exc "Failed to fetch data"), totalWait, attempts)
termination_by maxRetries - retryCount

/-- `fetch_data(url, max_retries)` (utils.py): starts with `wait_time = 1`
and `retry_count = 0`. -/
def fetch_data (resp : Nat → Response) (maxRetries : Nat := 5) :
    Except PyExc JSON × Nat × Nat :=
  fetchGo resp maxRetries 0 1 0 0

/-- The numeric value Python uses when a JSON value appears in an integer
comparison: numbers are themselves, booleans count as 0/1, anything else
raises `TypeError`. -/
def pyNumVal : JSON → Option Rat
  | .num q => some q
  | .bool b => some (if b then 1 else 0)
  | _ => none

/-- Iterations 2.. of the `while current_page < total_pages` loop shared by
`Station.get_installations` and `get_stations` (after the first iteration
has fixed `total_pages`): fetches pages `current, current+1, ...` while
the index is below the bound.  Returns the fetched page documents in page
order (an error aborts the loop carrying the fetch's exception) paired
with the log of page indices actually requested. -/
def pagesLoop (fetch : Nat → Except PyExc JSON) (total : Rat) (current : Nat) :
    Except PyExc (List JSON) × List Nat :=
  if h : (current : Rat) < total then
    match fetch current with
    | .error e => (.error e, [current])
    | .ok d =>
        let r := pagesLoop fetch total (current + 1)
        (r.1.map (fun rest => d :: rest), current :: r.2)
  else (.ok [], [])
termination_by (Int.ceil total).toNat - current
decreasing_by
  have h1 : (current : Int) < Int.ceil total := by
    rw [Int.lt_ceil]; exact_mod_cast h
  omega

/-- The whole `while` loop of `Station.get_installations` (models.py),
with `fetch p` the outcome of `fetch_data` on the page-`p` sensors URL.
The first iteration reads `totalPages` from the first response (an
uncaught `KeyError` if absent); `except HTTPError` around any page fetch
makes the whole call return `[]`; a non-numeric `totalPages` raises
`TypeError` at the next loop test.  Returns the page documents handed to
the `create_installations` tasks, plus the log of requested page
indices. -/
def giFetchPages (fetch : Nat → Except PyExc JSON) :
    Except PyExc (List JSON) × List Nat :=
  match fetch 0 with
  | .error (.httpError _) => (.ok [], [0])
  | .error e => (.error e, [0])
  | .ok d0 =>
    match pySubscript d0 "totalPages" with
    | .error e => (.error e, [0])
    | .ok tp =>
      match pyNumVal tp with
      | none => (.error (.typeError "comparison between int and non-number"), [0])
      | some total =>
        let r := pagesLoop fetch total 1
        match r.1 with
        | .error (.httpError _) => (.ok [], 0 :: r.2)
        | .error e => (.error e, 0 :: r.2)
        | .ok rest => (.ok (d0 :: rest), 0 :: r.2)

/-- `await asyncio.gather(*tasks)` over a batch of tasks created from the
elements of a list (`asyncio.create_task(f x)` for each `x`, in list
order): the task bodies used here contain no awaits, so they run to
completion in creation order and `gather` returns their results in task
order, or raises the first exception. -/
def gatherTasks {σ α : Type} (f : σ → Except PyExc α) : List σ → Except PyExc (List α)
  | [] => .ok []
  | x :: rest =>
    match f x with
    | .error e => .error e
    | .ok y => (gatherTasks f rest).map (fun l => y :: l)

/-- `Station.get_installations(self)` (models.py), with the
station-specific fetch oracle already applied (the URL is
`sensors/{self.id}?page=...`, so page `p`'s fetch outcome is `fetch p`):
runs the page loop, then awaits the `create_installations` tasks and
extends `master_list` with each result. -/
def get_installations (fetch : Nat → Except PyExc JSON) :
    Except PyExc (List Installation) :=
  match (giFetchPages fetch).1 with
  | .error e => .error e
  | .ok docs => (gatherTasks create_installations docs).map List.flatten

/-- A Python value as it may be passed to `Station.add_installations`:
an `Installation` instance or any other value. -/
inductive PyVal where
  | inst (i : Installation)
  | raw (j : JSON)

/-- Whether `isinstance(v, Installation)` holds. -/
def PyVal.isInst : PyVal → Bool
  | .inst _ => true
  | .raw _ => false

/-- The `Installation` carried by a `PyVal`, if any. -/
def PyVal.toInst : PyVal → Option Installation
  | .inst i => some i
  | .raw _ => none

/-- The argument of `Station.add_installations`: a Python list of values,
or a single non-list value. -/
inductive PyArg where
  | pylist (xs : List PyVal)
  | single (v : PyVal)

/-- `Station.add_installations(self, installations)` (models.py): a
non-list argument is wrapped into a one-element list; if any element is
not an `Installation` a `ValueError` is raised (the check is a full pass
over the list, before any append); otherwise every element is appended to
`self.installations` in order.  The returned station is the updated
`self`. -/
def Station.add_installations (s : Station) (arg : PyArg) : Except PyExc Station :=
  let xs := match arg with
    | .pylist l => l
    | .single v => [v]
  if xs.all PyVal.isInst then
    .ok { s with installations := s.installations ++ xs.filterMap PyVal.toInst }
  else
    .error (.valueError "All installations must be of type Installation")

/-- Iterations 2.. of the station `while` loop in `get_stations`
(models.py), after the first iteration fixed `total_pages`: each
iteration fetches one page (`except Exception: raise e` — every error
propagates) and immediately runs `create_stations` on it (whose
`ValueError`/`KeyError`/`TypeError` also propagate).  Creating the
per-station `get_installations` tasks raises nothing here; their results
surface later at the `gather`.  Returns the stations of pages
`current, current+1, ...` in page order (concatenated, as
`master_list.extend`) plus the log of requested page indices. -/
def stationsLoop (fetchS : Nat → Except PyExc JSON) (total : Rat) (current : Nat) :
    Except PyExc (List Station) × List Nat :=
  if h : (current : Rat) < total then
    match fetchS current with
    | .error e => (.error e, [current])
    | .ok d =>
      match create_stations d with
      | .error e => (.error e, [current])
      | .ok ss =>
        let r := stationsLoop fetchS total (current + 1)
        (r.1.map (fun rest => ss ++ rest), current :: r.2)
  else (.ok [], [])
termination_by (Int.ceil total).toNat - current
decreasing_by
  have h1 : (current : Int) < Int.ceil total := by
    rw [Int.lt_ceil]; exact_mod_cast h
  omega

/-- The whole station `while` loop of `get_stations`: the first iteration
fetches page 0 (errors propagate), reads `totalPages` (uncaught
`KeyError` if absent), parses the page with `create_stations`, and a
non-numeric `totalPages` raises `TypeError` at the next loop test (i.e.
after page 0 was parsed).  Returns `master_list` plus the log of
requested page indices. -/
def stationsPhase (fetchS : Nat → Except PyExc JSON) :
    Except PyExc (List Station) × List Nat :=
  match fetchS 0 with
  | .error e => (.error e, [0])
  | .ok d0 =>
    match pySubscript d0 "totalPages" with
    | .error e => (.error e, [0])
    | .ok tp =>
      match create_stations d0 with
      | .error e => (.error e, [0])
      | .ok ss0 =>
        match pyNumVal tp with
        | none => (.error (.typeError "comparison between int and non-number"), [0])
        | some total =>
          let r := stationsLoop fetchS total 1
          (r.1.map (fun rest => ss0 ++ rest), 0 :: r.2)

/-- The merge step of `get_stations`:
`for station, installs in zip(master_list, await asyncio.gather(*tasks)):
station.add_installations(installs)` — positional (zip) correlation of
each station with the result of the task dispatched for it.  `installs`
is always a Python list of `Installation`s here, so `add_installations`
never raises; the helper is still written through `add_installations` to
model that call. -/
def mergeInstallations : List Station → List (List Installation) → List Station
  | s :: ss, il :: ils =>
    (match s.add_installations (.pylist (il.map PyVal.inst)) with
     | .ok s1 => s1
     | .error _ => s) :: mergeInstallations ss ils
  | _, _ => []

/-- `get_stations(echo)` (models.py): runs the station loop, then gathers
every station's `get_installations()` task (one task per station, created
in `master_list` order; the double `await asyncio.gather(*tasks)` in the
source awaits the same completed tasks twice and yields the same
results in task order), zips the results positionally with the stations
and merges each into its station.  `echo` only toggles printing and is
not modelled.  `fetchI id p` is the outcome of `fetch_data` on the
`sensors/{id}?page=p` URL. -/
def get_stations (fetchS : Nat → Except PyExc JSON)
    (fetchI : JSON → Nat → Except PyExc JSON) : Except PyExc (List Station) :=
  match (stationsPhase fetchS).1 with
  | .error e => .error e
  | .ok master =>
    match gatherTasks (fun s => get_installations (fetchI s.id)) master with
    | .error e => .error e
    | .ok results => .ok (mergeInstallations master results)

/-- A dict record has every field `create_installations` reads. -/
def instHasRequired (r : JSON) : Bool :=
  match r with
  | .dict es =>
    (lookupKey es "Identyfikator stanowiska").isSome
      && (lookupKey es "Wskaźnik").isSome
      && (lookupKey es "Wskaźnik - wzór").isSome
      && (lookupKey es "Wskaźnik - kod").isSome
      && (lookupKey es "Id wskaźnika").isSome
  | _ => false

/-- A dict record has every field `create_stations` reads. -/
def stationHasRequired (r : JSON) : Bool :=
  match r with
  | .dict es =>
    (lookupKey es "Identyfikator stacji").isSome
      && (lookupKey es "Kod stacji").isSome
      && (lookupKey es "Nazwa stacji").isSome
      && (lookupKey es "WGS84 φ N").isSome
      && (lookupKey es "WGS84 λ E").isSome
      && (lookupKey es "Nazwa miasta").isSome
      && (lookupKey es "Identyfikator miasta").isSome
      && (lookupKey es "Gmina").isSome
      && (lookupKey es "Powiat").isSome
      && (lookupKey es "Województwo").isSome
      && (lookupKey es "Ulica").isSome
  | _ => false

/-- Fixture: a well-formed installation record. -/
def instRecA : JSON :=
  .dict [("Identyfikator stanowiska", .num 7), ("Wskaźnik", .str "a"),
    ("Wskaźnik - wzór", .str "b"), ("Wskaźnik - kod", .str "c"), ("Id wskaźnika", .num 3)]

/-- Fixture: the installation parsed from `instRecA`. -/
def instA : Installation := ⟨.num 7, .str "a", .str "b", .str "c", .num 3⟩

/-- Fixture: a second well-formed installation record. -/
def instRecB : JSON :=
  .dict [("Identyfikator stanowiska", .num 9), ("Wskaźnik", .str "d"),
    ("Wskaźnik - wzór", .str "e"), ("Wskaźnik - kod", .str "f"), ("Id wskaźnika", .num 4)]

/-- Fixture: the installation parsed from `instRecB`. -/
def instB : Installation := ⟨.num 9, .str "d", .str "e", .str "f", .num 4⟩

/-- Fixture: a well-formed station record. -/
def stRecA : JSON :=
  .dict [("Identyfikator stacji", .num 400), ("Kod stacji", .str "DsBogWysoka"),
    ("Nazwa stacji", .str "Bogatynia"), ("WGS84 φ N", .num 50), ("WGS84 λ E", .num 14),
    ("Nazwa miasta", .str "Bogatynia"), ("Identyfikator miasta", .num 42),
    ("Gmina", .str "Bogatynia"), ("Powiat", .str "zgorzelecki"),
    ("Województwo", .str "DOLNOŚLĄSKIE"), ("Ulica", .str "Wysoka")]

/-- Fixture: the station parsed from `stRecA`. -/
def stationA : Station :=
  ⟨.num 400, .str "DsBogWysoka", .str "Bogatynia", .num 50, .num 14,
    .dict [("name", .str "Bogatynia"), ("city_id", .num 42), ("commune", .str "Bogatynia"),
      ("district", .str "zgorzelecki"), ("province", .str "DOLNOŚLĄSKIE")],
    .str "Wysoka", []⟩

/-- Fixture: a second well-formed station record. -/
def stRecB : JSON :=
  .dict [("Identyfikator stacji", .num 401), ("Kod stacji", .str "DsWrocAlWisn"),
    ("Nazwa stacji", .str "Wrocław"), ("WGS84 φ N", .num 51), ("WGS84 λ E", .num 17),
    ("Nazwa miasta", .str "Wrocław"), ("Identyfikator miasta", .num 43),
    ("Gmina", .str "Wrocław"), ("Powiat", .str "Wrocław"),
    ("Województwo", .str "DOLNOŚLĄSKIE"), ("Ulica", .str "Wiśniowa")]

/-- Fixture: the station parsed from `stRecB`. -/
def stationB : Station :=
  ⟨.num 401, .str "DsWrocAlWisn", .str "Wrocław", .num 51, .num 17,
    .dict [("name", .str "Wrocław"), ("city_id", .num 43), ("commune", .str "Wrocław"),
      ("district", .str "Wrocław"), ("province", .str "DOLNOŚLĄSKIE")],
    .str "Wiśniowa", []⟩

/-- Fixture: a two-page installation listing (page `p` of a `totalPages = 2`
resource). -/
def instPagesW : Nat → JSON := fun p =>
  if p = 0 then
    .dict [("totalPages", .num 2),
      ("Lista stanowisk pomiarowych dla podanej stacji", .arr [instRecA])]
  else
    .dict [("totalPages", .num 2),
      ("Lista stanowisk pomiarowych dla podanej stacji", .arr [instRecB])]

/-- Fixture: the fetch oracle serving `instPagesW` without errors. -/
def instFetchW : Nat → Except PyExc JSON := fun p => .ok (instPagesW p)

/-- Fixture: entities of each page of `instPagesW`. -/
def instEntsW : Nat → List Installation := fun p => if p = 0 then [instA] else [instB]

/-- Fixture: a two-page station listing. -/
def stPagesW : Nat → JSON := fun p =>
  if p = 0 then .dict [("totalPages", .num 2), ("Lista stacji pomiarowych", .arr [stRecA])]
  else .dict [("totalPages", .num 2), ("Lista stacji pomiarowych", .arr [stRecB])]

/-- Fixture: the fetch oracle serving `stPagesW` without errors. -/
def stFetchW : Nat → Except PyExc JSON := fun p => .ok (stPagesW p)

/-- Fixture: stations of each page of `stPagesW`. -/
def stSSW : Nat → List Station := fun p => if p = 0 then [stationA] else [stationB]

/-- Fixture: a one-page station listing containing `stRecA` and `stRecB`. -/
def stPageAB : JSON :=
  .dict [("totalPages", .num 1), ("Lista stacji pomiarowych", .arr [stRecA, stRecB])]

/-- Fixture: a one-page installation listing containing `instRecA`. -/
def instPageOneA : JSON :=
  .dict [("totalPages", .num 1),
    ("Lista stanowisk pomiarowych dla podanej stacji", .arr [instRecA])]

/-- Fixture: a one-page installation listing containing `instRecB`. -/
def instPageOneB : JSON :=
  .dict [("totalPages", .num 1),
    ("Lista stanowisk pomiarowych dla podanej stacji", .arr [instRecB])]

/-- Fixture: installation fetches keyed by station identifier — station 400
serves `instPageOneA`, any other station serves `instPageOneB`. -/
def instFetchByIdW : JSON → Nat → Except PyExc JSON := fun i _ =>
  match i with
  | .num q => if q = 400 then .ok instPageOneA else .ok instPageOneB
  | _ => .ok instPageOneB

/-- Fixture: a two-page station listing whose page-1 fetch fails the way
`fetch_data` fails. -/
def stFailFetchW : Nat → Except PyExc JSON := fun p =>
  if p = 0 then .ok (.dict [("totalPages", .num 2), ("Lista stacji pomiarowych", .arr [stRecA])])
  else .error (.exc "Failed to fetch data")

/-- Fixture: a one-page station listing containing `stRecA` only. -/
def stPageOneA : JSON :=
  .dict [("totalPages", .num 1), ("Lista stacji pomiarowych", .arr [stRecA])]

/-- One loop iteration hitting a non-429 error status: the loop breaks and
`fetch_data` raises, with no wait added and one GET made. -/
lemma fetchGo_errorStatus (resp : Nat → Response) (M r w t a : Nat)
    (hr : r < M) (h : resp r = .errorStatus) :
    fetchGo resp M r w t a = (.error (.exc "Failed to fetch data"), t, a + 1) := by
  rw [fetchGo, if_pos hr, h]

/-- A run of `k` consecutive 429s followed by a success: the result is the
success body, the waits are `w, 2w, …, 2^(k-1)·w`, and `k+1` GETs are
made. -/
lemma fetchGo_chain (resp : Nat → Response) (b : JSON) :
    ∀ (k r w t a M : Nat), r + k < M →
      (∀ i, r ≤ i → i < r + k → resp i = .rateLimited) →
      resp (r + k) = .success b →
      fetchGo resp M r w t a
        = (.ok b, t + ∑ i in Finset.range k, w * 2 ^ i, a + k + 1) := by
  intro k
  induction k with
  | zero =>
    intro r w t a M h1 _h2 h3
    simp only [Nat.add_zero] at h3
    rw [fetchGo, if_pos (show r < M by omega), h3]
    simp
  | succ k ih =>
    intro r w t a M h1 h2 h3
    rw [fetchGo, if_pos (show r < M by omega), h2 r le_rfl (by omega)]
    show fetchGo resp M (r + 1) (w * 2) (t + w) (a + 1) = _
    rw [ih (r + 1) (w * 2) (t + w) (a + 1) M (by omega)
      (fun i hi1 hi2 => h2 i (by omega) (by omega))
      (by rw [show r + 1 + k = r + (k + 1) by omega]; exact h3)]
    have hb : ∀ x ∈ Finset.range k, w * 2 * 2 ^ x = w * 2 ^ (x + 1) := by
      intro x _; ring
    have hs : t + w + ∑ i in Finset.range k, w * 2 * 2 ^ i
        = t + ∑ i in Finset.range (k + 1), w * 2 ^ i := by
      rw [Finset.sum_congr rfl hb, Finset.sum_range_succ']
      simp only [pow_zero, mul_one]
      omega
    rw [hs, show a + 1 + k + 1 = a + (k + 1) + 1 by omega]

/-- If the endpoint rate-limits on every attempt the loop can make, the
retry budget is exhausted and `fetch_data` raises. -/
lemma fetchGo_exhaust (resp : Nat → Response) (M : Nat)
    (h : ∀ i, i < M → resp i = .rateLimited) :
    ∀ (n r w t a : Nat), M - r ≤ n →
      (fetchGo resp M r w t a).1 = .error (.exc "Failed to fetch data") := by
  intro n
  induction n with
  | zero =>
    intro r w t a hn
    rw [fetchGo, if_neg (by omega)]
  | succ n ih =>
    intro r w t a hn
    by_cases hr : r < M
    · rw [fetchGo, if_pos hr, h r hr]
      exact ih (r + 1) (w * 2) (t + w) (a + 1) (by omega)
    · rw [fetchGo, if_neg hr]

/-- Geometric series: `1 + 2 + ⋯ + 2^(k-1) = 2^k - 1`. -/
lemma sum_two_pow (k : Nat) : ∑ i in Finset.range k, 2 ^ i = 2 ^ k - 1 := by
  induction k with
  | zero => simp
  | succ k ih =>
    rw [Finset.sum_range_succ, ih]
    have h1 : 1 ≤ 2 ^ k := Nat.one_le_two_pow
    have h2 : 2 ^ (k + 1) = 2 ^ k + 2 ^ k := by rw [pow_succ]; omega
    omega

/-- C3: against an endpoint that returns HTTP 429 exactly `k` times and then
succeeds, `fetch_data` succeeds with the decoded body after waiting
`1 + 2 + ⋯ + 2^(k-1)` time units (backoff starting at 1 and doubling per
consecutive 429, `k+1` GETs in total) when `k < max_retries`, and fails
with the max-retries-exceeded error when `k ≥ max_retries`. -/
theorem retry_backoff (k M : Nat) (b : JSON) :
    (k < M →
      fetch_data (fun i => if i < k then Response.rateLimited else Response.success b) M
        = (.ok b, ∑ i in Finset.range k, 2 ^ i, k + 1))
    ∧ (M ≤ k →
      (fetch_data (fun i => if i < k then Response.rateLimited else Response.success b) M).1
        = .error (.exc "Failed to fetch data")) := by
  constructor
  · intro hk
    unfold fetch_data
    rw [fetchGo_chain _ b k 0 1 0 0 M (by omega)
      (fun i _hi1 hi2 => by simp [show i < k from by omega])
      (by simp)]
    simp
  · intro hk
    unfold fetch_data
    exact fetchGo_exhaust _ M (fun i hi => by simp [show i < k from by omega]) M 0 1 0 0 (by omega)

/-- Witness for C3 at `k = 2`, `max_retries = 5` (succeeds, waits 1+2 = 3,
makes 3 GETs) and at `k = 5`, `max_retries = 5` (fails). -/
theorem retry_backoff_witness :
    fetch_data (fun i => if i < 2 then Response.rateLimited else Response.success .null) 5
      = (.ok .null, 3, 3)
    ∧ (fetch_data (fun i => if i < 5 then Response.rateLimited else Response.success .null) 5).1
      = .error (.exc "Failed to fetch data") := by
  constructor
  · have h := (retry_backoff 2 5 .null).1 (by decide)
    simpa [Finset.sum_range_succ] using h
  · exact (retry_backoff 5 5 .null).2 (by decide)

/-- C6: on any HTTP error status other than 429 on the first attempt,
`fetch_data` fails after that single attempt — no retry (1 GET) and no
backoff wait (total wait 0). -/
theorem non_429_fails_immediately (resp : Nat → Response) (M : Nat)
    (h : resp 0 = .errorStatus) (hM : 0 < M) :
    fetch_data resp M = (.error (.exc "Failed to fetch data"), 0, 1) :=
  fetchGo_errorStatus resp M 0 1 0 0 hM h

/-- Witness for C6: a mock endpoint whose first response is a non-429 error
status. -/
theorem non_429_fails_immediately_witness :
    fetch_data (fun _ => Response.errorStatus) 5
      = (.error (.exc "Failed to fetch data"), 0, 1) :=
  non_429_fails_immediately (fun _ => Response.errorStatus) 5 rfl (by decide)

/-- C7: given any non-document (non-dict) input value — e.g. a list — both
entity parsers fail with the `ValueError` type-contract error and produce
no entities. -/
theorem non_dict_document_value_error (j : JSON) (h : j.isDict = false) :
    create_installations j = .error (.valueError "Data must be a dictionary/json")
    ∧ create_stations j = .error (.valueError "Data must be a dictionary/json") := by
  constructor
  · rw [create_installations, if_neg (by simp [h])]
  · rw [create_stations, if_neg (by simp [h])]

/-- Witness for C7 at the list value `[]`. -/
theorem non_dict_document_value_error_witness :
    create_installations (.arr []) = .error (.valueError "Data must be a dictionary/json")
    ∧ create_stations (.arr []) = .error (.valueError "Data must be a dictionary/json") :=
  non_dict_document_value_error (.arr []) rfl

/-- C9: the entity parsers are deterministic functions of the raw document —
parsing the same document twice yields structurally equal entity lists. -/
theorem parse_deterministic (d : JSON) (l1 l2 : List Installation) (m1 m2 : List Station) :
    (create_installations d = .ok l1 → create_installations d = .ok l2 → l1 = l2)
    ∧ (create_stations d = .ok m1 → create_stations d = .ok m2 → m1 = m2) := by
  constructor
  · intro h1 h2
    rw [h1] at h2
    exact Except.ok.inj h2
  · intro h1 h2
    rw [h1] at h2
    exact Except.ok.inj h2

/-- Witness for C9 on a concrete one-record installation page and a
zero-record station page. -/
theorem parse_deterministic_witness :
    ([⟨.num 7, .str "a", .str "b", .str "c", .num 3⟩] : List Installation)
      = [⟨.num 7, .str "a", .str "b", .str "c", .num 3⟩]
    ∧ ([] : List Station) = [] := by
  constructor
  · exact (parse_deterministic
      (.dict [("Lista stanowisk pomiarowych dla podanej stacji",
        .arr [.dict [("Identyfikator stanowiska", .num 7), ("Wskaźnik", .str "a"),
          ("Wskaźnik - wzór", .str "b"), ("Wskaźnik - kod", .str "c"),
          ("Id wskaźnika", .num 3)]])])
      _ _ [] []).1 rfl rfl
  · exact (parse_deterministic
      (.dict [("Lista stacji pomiarowych", .arr [])]) [] [] _ _).2 rfl rfl

/-- C10: `Station.add_installations` raises `ValueError` when any element of
a list argument is not an `Installation` (the check is made before any
append, so on error nothing is appended); otherwise it appends every
element in order, leaving every other field of the station unchanged; and
a single non-list `Installation` argument is treated as a one-element
list. -/
theorem add_installations_spec (s : Station) (xs : List PyVal) :
    ((∃ v ∈ xs, v.isInst = false) →
      s.add_installations (.pylist xs)
        = .error (.valueError "All installations must be of type Installation"))
    ∧ ((∀ v ∈ xs, v.isInst = true) →
      s.add_installations (.pylist xs)
        = .ok { s with installations := s.installations ++ xs.filterMap PyVal.toInst })
    ∧ (∀ i : Installation,
      s.add_installations (.single (.inst i))
        = .ok { s with installations := s.installations ++ [i] }) := by
  refine ⟨?_, ?_, ?_⟩
  · rintro ⟨v, hv, hfalse⟩
    rw [Station.add_installations]
    rw [if_neg]
    simp only [List.all_eq_true]
    intro hall
    rw [hall v hv] at hfalse
    exact Bool.noConfusion hfalse
  · intro hall
    rw [Station.add_installations, if_pos (List.all_eq_true.mpr hall)]
  · intro i
    rfl

/-- Witness for C10: a mixed list raises, an all-`Installation` list appends
in order, and a bare `Installation` is wrapped. -/
theorem add_installations_spec_witness :
    (let s : Station := ⟨.num 1, .str "c", .str "n", .num 0, .num 0, .null, .str "u", []⟩;
     let i1 : Installation := ⟨.num 7, .str "a", .str "b", .str "c", .num 3⟩;
     s.add_installations (.pylist [.inst i1, .raw .null])
        = .error (.valueError "All installations must be of type Installation")
     ∧ s.add_installations (.pylist [.inst i1, .inst i1])
        = .ok { s with installations := [i1, i1] }
     ∧ s.add_installations (.single (.inst i1))
        = .ok { s with installations := [i1] }) := by
  refine ⟨?_, ?_, ?_⟩
  · exact (add_installations_spec _ _).1 ⟨.raw .null, by simp, rfl⟩
  · exact (add_installations_spec _ _).2.1 (by simp [PyVal.isInst])
  · exact (add_installations_spec _ []).2.2 _

/-- On a dict, `d[key]` either returns a value or raises `KeyError` — never
any other exception. -/
lemma pySubscript_dict_cases (es : List (String × JSON)) (k : String) :
    (∃ v, pySubscript (.dict es) k = .ok v)
    ∨ pySubscript (.dict es) k = .error (.keyError k) := by
  unfold pySubscript
  rcases h : lookupKey es k with _ | v <;> simp [h]

/-- On a dict record, `parseInstallation` either succeeds or raises a
`KeyError`, and it succeeds exactly when every required field is
present. -/
lemma parseInstallation_analysis (es : List (String × JSON)) :
    ((∃ i, parseInstallation (.dict es) = .ok i)
      ∨ ∃ k, parseInstallation (.dict es) = .error (.keyError k))
    ∧ ((∃ i, parseInstallation (.dict es) = .ok i) ↔ instHasRequired (.dict es) = true) := by
  cases h1 : lookupKey es "Identyfikator stanowiska" with
  | none => simp [parseInstallation, pySubscript, instHasRequired, h1, Bind.bind, Except.bind]
  | some v1 =>
  cases h2 : lookupKey es "Wskaźnik" with
  | none => simp [parseInstallation, pySubscript, instHasRequired, h1, h2, Bind.bind, Except.bind]
  | some v2 =>
  cases h3 : lookupKey es "Wskaźnik - wzór" with
  | none => simp [parseInstallation, pySubscript, instHasRequired, h1, h2, h3, Bind.bind, Except.bind]
  | some v3 =>
  cases h4 : lookupKey es "Wskaźnik - kod" with
  | none => simp [parseInstallation, pySubscript, instHasRequired, h1, h2, h3, h4, Bind.bind, Except.bind]
  | some v4 =>
  cases h5 : lookupKey es "Id wskaźnika" with
  | none => simp [parseInstallation, pySubscript, instHasRequired, h1, h2, h3, h4, h5, Bind.bind, Except.bind]
  | some v5 =>
    simp [parseInstallation, pySubscript, instHasRequired, h1, h2, h3, h4, h5,
      Bind.bind, Except.bind, pure, Except.pure]

/-- On a dict record, `parseStation` either succeeds or raises a
`KeyError`, and it succeeds exactly when every required field is
present. -/
lemma parseStation_analysis (es : List (String × JSON)) :
    ((∃ s, parseStation (.dict es) = .ok s)
      ∨ ∃ k, parseStation (.dict es) = .error (.keyError k))
    ∧ ((∃ s, parseStation (.dict es) = .ok s) ↔ stationHasRequired (.dict es) = true) := by
  cases h1 : lookupKey es "Identyfikator stacji" with
  | none => simp [parseStation, pySubscript, stationHasRequired, h1, Bind.bind, Except.bind]
  | some v1 =>
  cases h2 : lookupKey es "Kod stacji" with
  | none => simp [parseStation, pySubscript, stationHasRequired, h1, h2, Bind.bind, Except.bind]
  | some v2 =>
  cases h3 : lookupKey es "Nazwa stacji" with
  | none => simp [parseStation, pySubscript, stationHasRequired, h1, h2, h3, Bind.bind, Except.bind]
  | some v3 =>
  cases h4 : lookupKey es "WGS84 φ N" with
  | none => simp [parseStation, pySubscript, stationHasRequired, h1, h2, h3, h4, Bind.bind, Except.bind]
  | some v4 =>
  cases h5 : lookupKey es "WGS84 λ E" with
  | none => simp [parseStation, pySubscript, stationHasRequired, h1, h2, h3, h4, h5, Bind.bind, Except.bind]
  | some v5 =>
  cases h6 : lookupKey es "Nazwa miasta" with
  | none => simp [parseStation, pySubscript, stationHasRequired, h1, h2, h3, h4, h5, h6, Bind.bind, Except.bind]
  | some v6 =>
  cases h7 : lookupKey es "Identyfikator miasta" with
  | none => simp [parseStation, pySubscript, stationHasRequired, h1, h2, h3, h4, h5, h6, h7, Bind.bind, Except.bind]
  | some v7 =>
  cases h8 : lookupKey es "Gmina" with
  | none => simp [parseStation, pySubscript, stationHasRequired, h1, h2, h3, h4, h5, h6, h7, h8, Bind.bind, Except.bind]
  | some v8 =>
  cases h9 : lookupKey es "Powiat" with
  | none => simp [parseStation, pySubscript, stationHasRequired, h1, h2, h3, h4, h5, h6, h7, h8, h9, Bind.bind, Except.bind]
  | some v9 =>
  cases h10 : lookupKey es "Województwo" with
  | none => simp [parseStation, pySubscript, stationHasRequired, h1, h2, h3, h4, h5, h6, h7, h8, h9, h10, Bind.bind, Except.bind]
  | some v10 =>
  cases h11 : lookupKey es "Ulica" with
  | none => simp [parseStation, pySubscript, stationHasRequired, h1, h2, h3, h4, h5, h6, h7, h8, h9, h10, h11, Bind.bind, Except.bind]
  | some v11 =>
    simp [parseStation, pySubscript, stationHasRequired, h1, h2, h3, h4, h5, h6, h7, h8,
      h9, h10, h11, Bind.bind, Except.bind, pure, Except.pure]

/-- On a list of dict records, the `create_installations` record loop never
raises: it keeps exactly the records that parse, in list order. -/
lemma buildInstallations_eq (items : List JSON) (h : ∀ r ∈ items, r.isDict = true) :
    buildInstallations items
      = .ok (items.filterMap fun r => (parseInstallation r).toOption) := by
  induction items with
  | nil => rfl
  | cons r rest ih =>
    have hr : r.isDict = true := h r (by simp)
    have hrest := ih (fun x hx => h x (by simp [hx]))
    obtain ⟨es, rfl⟩ : ∃ es, r = .dict es := by
      cases r <;> simp [JSON.isDict] at hr ⊢
    rcases (parseInstallation_analysis es).1 with ⟨i, hp⟩ | ⟨k, hp⟩ <;>
      simp [buildInstallations, hp, hrest, Except.toOption, Except.map, List.filterMap_cons]

/-- On a list of dict records, the `create_stations` record loop never
raises: it keeps exactly the records that parse, in list order. -/
lemma buildStations_eq (items : List JSON) (h : ∀ r ∈ items, r.isDict = true) :
    buildStations items
      = .ok (items.filterMap fun r => (parseStation r).toOption) := by
  induction items with
  | nil => rfl
  | cons r rest ih =>
    have hr : r.isDict = true := h r (by simp)
    have hrest := ih (fun x hx => h x (by simp [hx]))
    obtain ⟨es, rfl⟩ : ∃ es, r = .dict es := by
      cases r <;> simp [JSON.isDict] at hr ⊢
    rcases (parseStation_analysis es).1 with ⟨s, hp⟩ | ⟨k, hp⟩ <;>
      simp [buildStations, hp, hrest, Except.toOption, Except.map, List.filterMap_cons]

/-- The number of parsed installations equals the number of records with
all required fields present. -/
lemma filterMap_parseInstallation_length (items : List JSON)
    (h : ∀ r ∈ items, r.isDict = true) :
    (items.filterMap fun r => (parseInstallation r).toOption).length
      = (items.filter instHasRequired).length := by
  induction items with
  | nil => rfl
  | cons r rest ih =>
    have hr : r.isDict = true := h r (by simp)
    have hrest := ih (fun x hx => h x (by simp [hx]))
    obtain ⟨es, rfl⟩ : ∃ es, r = .dict es := by
      cases r <;> simp [JSON.isDict] at hr ⊢
    rcases (parseInstallation_analysis es).1 with ⟨i, hp⟩ | ⟨k, hp⟩
    · have hreq : instHasRequired (.dict es) = true :=
        (parseInstallation_analysis es).2.mp ⟨i, hp⟩
      simp only [Except.toOption] at hrest
      simp [List.filterMap_cons, List.filter_cons, hp, hreq, Except.toOption, hrest]
    · have hreq : instHasRequired (.dict es) = false := by
        cases hb : instHasRequired (.dict es)
        · rfl
        · obtain ⟨i, hpok⟩ := (parseInstallation_analysis es).2.mpr hb
          rw [hp] at hpok
          exact Except.noConfusion hpok
      simp only [Except.toOption] at hrest
      simp [List.filterMap_cons, List.filter_cons, hp, hreq, Except.toOption, hrest]

/-- The number of parsed stations equals the number of records with all
required fields present. -/
lemma filterMap_parseStation_length (items : List JSON)
    (h : ∀ r ∈ items, r.isDict = true) :
    (items.filterMap fun r => (parseStation r).toOption).length
      = (items.filter stationHasRequired).length := by
  induction items with
  | nil => rfl
  | cons r rest ih =>
    have hr : r.isDict = true := h r (by simp)
    have hrest := ih (fun x hx => h x (by simp [hx]))
    obtain ⟨es, rfl⟩ : ∃ es, r = .dict es := by
      cases r <;> simp [JSON.isDict] at hr ⊢
    rcases (parseStation_analysis es).1 with ⟨s, hp⟩ | ⟨k, hp⟩
    · have hreq : stationHasRequired (.dict es) = true :=
        (parseStation_analysis es).2.mp ⟨s, hp⟩
      simp only [Except.toOption] at hrest
      simp [List.filterMap_cons, List.filter_cons, hp, hreq, Except.toOption, hrest]
    · have hreq : stationHasRequired (.dict es) = false := by
        cases hb : stationHasRequired (.dict es)
        · rfl
        · obtain ⟨s, hpok⟩ := (parseStation_analysis es).2.mpr hb
          rw [hp] at hpok
          exact Except.noConfusion hpok
      simp only [Except.toOption] at hrest
      simp [List.filterMap_cons, List.filter_cons, hp, hreq, Except.toOption, hrest]

/-- C5: on a page document whose record list holds dict records, each
parser returns exactly the entities parsed from the records with all
required fields, in list order; records missing a required field are
skipped (their `KeyError` is caught) and raise no error, and the number
of parsed entities equals the number of fully-formed records. -/
theorem malformed_record_skip
    (esI : List (String × JSON)) (itemsI : List JSON)
    (hI : lookupKey esI "Lista stanowisk pomiarowych dla podanej stacji" = some (.arr itemsI))
    (hdI : ∀ r ∈ itemsI, r.isDict = true)
    (esS : List (String × JSON)) (itemsS : List JSON)
    (hS : lookupKey esS "Lista stacji pomiarowych" = some (.arr itemsS))
    (hdS : ∀ r ∈ itemsS, r.isDict = true) :
    (create_installations (.dict esI)
        = .ok (itemsI.filterMap fun r => (parseInstallation r).toOption)
      ∧ (itemsI.filterMap fun r => (parseInstallation r).toOption).length
        = (itemsI.filter instHasRequired).length)
    ∧ (create_stations (.dict esS)
        = .ok (itemsS.filterMap fun r => (parseStation r).toOption)
      ∧ (itemsS.filterMap fun r => (parseStation r).toOption).length
        = (itemsS.filter stationHasRequired).length) := by
  refine ⟨⟨?_, filterMap_parseInstallation_length itemsI hdI⟩,
    ⟨?_, filterMap_parseStation_length itemsS hdS⟩⟩
  · simp [create_installations, JSON.isDict, pySubscript, hI, pyIter,
      Bind.bind, Except.bind, buildInstallations_eq itemsI hdI]
  · simp [create_stations, JSON.isDict, pySubscript, hS, pyIter,
      Bind.bind, Except.bind, buildStations_eq itemsS hdS]

/-- Witness for C5: an installation page with 2 valid records and 1 record
missing a field yields exactly the 2 valid entities; a station page with
one field-missing record yields no station and no error. -/
theorem malformed_record_skip_witness :
    create_installations (.dict [("Lista stanowisk pomiarowych dla podanej stacji",
        .arr [.dict [("Identyfikator stanowiska", .num 7), ("Wskaźnik", .str "a"),
                ("Wskaźnik - wzór", .str "b"), ("Wskaźnik - kod", .str "c"),
                ("Id wskaźnika", .num 3)],
              .dict [("Identyfikator stanowiska", .num 8)],
              .dict [("Identyfikator stanowiska", .num 9), ("Wskaźnik", .str "d"),
                ("Wskaźnik - wzór", .str "e"), ("Wskaźnik - kod", .str "f"),
                ("Id wskaźnika", .num 4)]])])
      = .ok [⟨.num 7, .str "a", .str "b", .str "c", .num 3⟩,
             ⟨.num 9, .str "d", .str "e", .str "f", .num 4⟩]
    ∧ create_stations (.dict [("Lista stacji pomiarowych",
        .arr [.dict [("Identyfikator stacji", .num 400)]])]) = .ok [] := by
  have h := malformed_record_skip
    [("Lista stanowisk pomiarowych dla podanej stacji",
        .arr [.dict [("Identyfikator stanowiska", .num 7), ("Wskaźnik", .str "a"),
                ("Wskaźnik - wzór", .str "b"), ("Wskaźnik - kod", .str "c"),
                ("Id wskaźnika", .num 3)],
              .dict [("Identyfikator stanowiska", .num 8)],
              .dict [("Identyfikator stanowiska", .num 9), ("Wskaźnik", .str "d"),
                ("Wskaźnik - wzór", .str "e"), ("Wskaźnik - kod", .str "f"),
                ("Id wskaźnika", .num 4)]])]
    [.dict [("Identyfikator stanowiska", .num 7), ("Wskaźnik", .str "a"),
        ("Wskaźnik - wzór", .str "b"), ("Wskaźnik - kod", .str "c"),
        ("Id wskaźnika", .num 3)],
      .dict [("Identyfikator stanowiska", .num 8)],
      .dict [("Identyfikator stanowiska", .num 9), ("Wskaźnik", .str "d"),
        ("Wskaźnik - wzór", .str "e"), ("Wskaźnik - kod", .str "f"),
        ("Id wskaźnika", .num 4)]]
    rfl (by simp [JSON.isDict])
    [("Lista stacji pomiarowych", .arr [.dict [("Identyfikator stacji", .num 400)]])]
    [.dict [("Identyfikator stacji", .num 400)]]
    rfl (by simp [JSON.isDict])
  exact ⟨h.1.1, h.2.1⟩

/-- When every page from `current` up to `T - 1` fetches successfully, the
tail loop requests exactly the indices `current, …, T-1`, once each, and
returns those pages in order. -/
lemma pagesLoop_ok (fetch : Nat → Except PyExc JSON) (T : Nat) (d : Nat → JSON) :
    ∀ (n current : Nat), T - current ≤ n →
      (∀ p, current ≤ p → p < T → fetch p = .ok (d p)) →
      pagesLoop fetch (T : Rat) current
        = (.ok ((List.range' current (T - current)).map d),
           List.range' current (T - current)) := by
  intro n
  induction n with
  | zero =>
    intro c hc hf
    have hTc : T ≤ c := by omega
    rw [pagesLoop, dif_neg (by exact_mod_cast Nat.not_lt.mpr hTc)]
    simp [Nat.sub_eq_zero_of_le hTc]
  | succ n ih =>
    intro c hc hf
    by_cases hlt : c < T
    · rw [pagesLoop, dif_pos (by exact_mod_cast hlt), hf c le_rfl hlt,
        ih (c + 1) (by omega) (fun p h1 h2 => hf p (by omega) h2)]
      have h1 : T - c = (T - (c + 1)) + 1 := by omega
      rw [h1]
      simp [List.range', Except.map]
    · rw [pagesLoop, dif_neg (by exact_mod_cast hlt)]
      simp [Nat.sub_eq_zero_of_le (by omega : T ≤ c)]

/-- When page 0 fetches successfully, reports `totalPages = T ≥ 1`, and all
later pages fetch successfully, the `get_installations` loop requests
exactly pages `0, …, T-1`, once each, and hands all `T` page documents to
the parser tasks. -/
lemma giFetchPages_ok (fetch : Nat → Except PyExc JSON) (T : Nat) (d : Nat → JSON)
    (hT : 1 ≤ T) (hf : ∀ p, p < T → fetch p = .ok (d p))
    (htp : pySubscript (d 0) "totalPages" = .ok (.num (T : Rat))) :
    giFetchPages fetch = (.ok ((List.range T).map d), List.range T) := by
  obtain ⟨U, rfl⟩ : ∃ U, T = U + 1 := ⟨T - 1, by omega⟩
  have hloop := pagesLoop_ok fetch (U + 1) d (U + 1) 1 (by omega)
    (fun p h1 h2 => hf p h2)
  simp only [Nat.add_sub_cancel] at hloop
  simp only [giFetchPages, hf 0 (by omega), htp, pyNumVal, hloop,
    List.range_eq_range']
  simp [List.range']

/-- When every task succeeds, the gather returns the list of all results
in task order. -/
lemma gatherTasks_ok {σ α : Type} (f : σ → Except PyExc α) (g : σ → α) :
    ∀ xs : List σ, (∀ x ∈ xs, f x = .ok (g x)) →
      gatherTasks f xs = .ok (xs.map g) := by
  intro xs
  induction xs with
  | nil => intro _; rfl
  | cons x rest ih =>
    intro h
    simp [gatherTasks, h x (by simp), ih (fun y hy => h y (by simp [hy])),
      Except.map]

/-- Success path of `Station.get_installations`: all pages fetched and
parsed, result is the concatenation of the per-page entity lists. -/
lemma get_installations_ok (fetch : Nat → Except PyExc JSON) (T : Nat)
    (d : Nat → JSON) (ents : Nat → List Installation)
    (hT : 1 ≤ T) (hf : ∀ p, p < T → fetch p = .ok (d p))
    (htp : pySubscript (d 0) "totalPages" = .ok (.num (T : Rat)))
    (hparse : ∀ p, p < T → create_installations (d p) = .ok (ents p)) :
    get_installations fetch = .ok (((List.range T).map ents).flatten) := by
  have hm : gatherTasks create_installations ((List.range T).map d)
      = .ok ((List.range T).map ents) := by
    have h1 := gatherTasks_ok (fun p => create_installations (d p)) ents (List.range T)
      (fun p hp => hparse p (List.mem_range.mp hp))
    have h2 : ∀ ps : List Nat,
        gatherTasks create_installations (ps.map d)
          = gatherTasks (fun p => create_installations (d p)) ps := by
      intro ps
      induction ps with
      | nil => rfl
      | cons p rest ih => simp [gatherTasks, ih]
    rw [h2, h1]
  simp [get_installations, giFetchPages_ok fetch T d hT hf htp, hm, Except.map]

/-- When every page from `current` up to `T - 1` fetches and parses
successfully, the tail of the station loop requests exactly the indices
`current, …, T-1`, once each, and returns the stations of those pages in
order. -/
lemma stationsLoop_ok (fetchS : Nat → Except PyExc JSON) (T : Nat)
    (d : Nat → JSON) (ss : Nat → List Station) :
    ∀ (n current : Nat), T - current ≤ n →
      (∀ p, current ≤ p → p < T → fetchS p = .ok (d p)) →
      (∀ p, current ≤ p → p < T → create_stations (d p) = .ok (ss p)) →
      stationsLoop fetchS (T : Rat) current
        = (.ok (((List.range' current (T - current)).map ss).flatten),
           List.range' current (T - current)) := by
  intro n
  induction n with
  | zero =>
    intro c hc hf hcs
    have hTc : T ≤ c := by omega
    rw [stationsLoop, dif_neg (by exact_mod_cast Nat.not_lt.mpr hTc)]
    simp [Nat.sub_eq_zero_of_le hTc]
  | succ n ih =>
    intro c hc hf hcs
    by_cases hlt : c < T
    · rw [stationsLoop, dif_pos (by exact_mod_cast hlt), hf c le_rfl hlt]
      simp only [hcs c le_rfl hlt,
        ih (c + 1) (by omega) (fun p h1 h2 => hf p (by omega) h2)
          (fun p h1 h2 => hcs p (by omega) h2)]
      have h1 : T - c = (T - (c + 1)) + 1 := by omega
      rw [h1]
      simp [List.range', Except.map]
    · rw [stationsLoop, dif_neg (by exact_mod_cast hlt)]
      simp [Nat.sub_eq_zero_of_le (by omega : T ≤ c)]

/-- Success path of the whole station loop of `get_stations`. -/
lemma stationsPhase_ok (fetchS : Nat → Except PyExc JSON) (T : Nat)
    (d : Nat → JSON) (ss : Nat → List Station)
    (hT : 1 ≤ T) (hf : ∀ p, p < T → fetchS p = .ok (d p))
    (htp : pySubscript (d 0) "totalPages" = .ok (.num (T : Rat)))
    (hcs : ∀ p, p < T → create_stations (d p) = .ok (ss p)) :
    stationsPhase fetchS
      = (.ok (((List.range T).map ss).flatten), List.range T) := by
  obtain ⟨U, rfl⟩ : ∃ U, T = U + 1 := ⟨T - 1, by omega⟩
  have hloop := stationsLoop_ok fetchS (U + 1) d ss (U + 1) 1 (by omega)
    (fun p h1 h2 => hf p h2) (fun p h1 h2 => hcs p h2)
  simp only [Nat.add_sub_cancel] at hloop
  simp only [stationsPhase, hf 0 (by omega), htp, pyNumVal, hcs 0 (by omega),
    hloop, List.range_eq_range']
  simp [List.range', Except.map]

/-- C2: for a first response reporting `totalPages = T ≥ 1` and pages that
all fetch and parse successfully, each of the two page iterators — the
loop of `Station.get_installations` and the station loop of
`get_stations` — requests page indices `0..T-1` exactly once each and
returns the concatenation of the entities of all `T` pages, no entity
dropped or duplicated. -/
theorem pagination_completeness :
    (∀ (fetch : Nat → Except PyExc JSON) (T : Nat) (d : Nat → JSON)
        (ents : Nat → List Installation),
      1 ≤ T →
      (∀ p, p < T → fetch p = .ok (d p)) →
      pySubscript (d 0) "totalPages" = .ok (.num (T : Rat)) →
      (∀ p, p < T → create_installations (d p) = .ok (ents p)) →
      (giFetchPages fetch).2 = List.range T
        ∧ get_installations fetch = .ok (((List.range T).map ents).flatten))
    ∧ (∀ (fetchS : Nat → Except PyExc JSON) (T : Nat) (d : Nat → JSON)
        (ss : Nat → List Station),
      1 ≤ T →
      (∀ p, p < T → fetchS p = .ok (d p)) →
      pySubscript (d 0) "totalPages" = .ok (.num (T : Rat)) →
      (∀ p, p < T → create_stations (d p) = .ok (ss p)) →
      (stationsPhase fetchS).2 = List.range T
        ∧ (stationsPhase fetchS).1 = .ok (((List.range T).map ss).flatten)) := by
  constructor
  · intro fetch T d ents hT hf htp hparse
    refine ⟨?_, get_installations_ok fetch T d ents hT hf htp hparse⟩
    rw [giFetchPages_ok fetch T d hT hf htp]
  · intro fetchS T d ss hT hf htp hcs
    rw [stationsPhase_ok fetchS T d ss hT hf htp hcs]
    exact ⟨rfl, rfl⟩

/-- Witness for C2 at `T = 2`: both iterators request pages `[0, 1]` and
return the concatenation of both pages' entities. -/
theorem pagination_completeness_witness :
    (giFetchPages instFetchW).2 = [0, 1]
    ∧ get_installations instFetchW = .ok [instA, instB]
    ∧ (stationsPhase stFetchW).2 = [0, 1]
    ∧ (stationsPhase stFetchW).1 = .ok [stationA, stationB] := by
  have h1 := pagination_completeness.1 instFetchW 2 instPagesW instEntsW (by omega)
    (fun p _ => rfl) (by simp [instPagesW, pySubscript, lookupKey])
    (by
      intro p hp
      rcases p with _ | (_ | p)
      · rfl
      · rfl
      · omega)
  have h2 := pagination_completeness.2 stFetchW 2 stPagesW stSSW (by omega)
    (fun p _ => rfl) (by simp [stPagesW, pySubscript, lookupKey])
    (by
      intro p hp
      rcases p with _ | (_ | p)
      · rfl
      · rfl
      · omega)
  exact ⟨h1.1.trans rfl, h1.2.trans rfl, h2.1.trans rfl, h2.2.trans rfl⟩

/-- `add_installations` on a Python list of `Installation`s never raises:
it appends them all in order. -/
lemma add_installations_insts (s : Station) (l : List Installation) :
    s.add_installations (.pylist (l.map PyVal.inst))
      = .ok { s with installations := s.installations ++ l } := by
  have hall : (l.map PyVal.inst).all PyVal.isInst = true := by
    simp [List.all_map, PyVal.isInst]
  have hfm : ∀ m : List Installation, (m.map PyVal.inst).filterMap PyVal.toInst = m := by
    intro m
    induction m with
    | nil => rfl
    | cons i rest ih => simp only [List.map_cons, List.filterMap_cons, PyVal.toInst, ih]
  simp only [Station.add_installations, hall, if_pos, hfm l]

/-- The merge loop of `get_stations` on equally long lists: station `i`
receives exactly the `i`-th gathered result. -/
lemma mergeInstallations_eq :
    ∀ (ss : List Station) (ils : List (List Installation)),
      mergeInstallations ss ils
        = (List.zip ss ils).map
            (fun p => { p.1 with installations := p.1.installations ++ p.2 }) := by
  intro ss
  induction ss with
  | nil => intro ils; cases ils <;> rfl
  | cons s rest ih =>
    intro ils
    cases ils with
    | nil => rfl
    | cons il ils' => simp [mergeInstallations, add_installations_insts, ih, List.zip_cons_cons]

/-- C4: with a single station page parsing to `[s1, s2]` and installation
fetches keyed by station identifier returning `[ia]` for `s1` and `[ib]`
for `s2`, the merged result pairs each station with the result of its own
dispatched task — `s1` gets `[ia]`, `s2` gets `[ib]`, never swapped — and
the merge is one `add_installations` call per station. -/
theorem station_installation_correlation
    (fetchS : Nat → Except PyExc JSON) (fetchI : JSON → Nat → Except PyExc JSON)
    (d0 : JSON) (s1 s2 : Station) (ia ib : Installation)
    (h0 : fetchS 0 = .ok d0)
    (htp : pySubscript d0 "totalPages" = .ok (.num 1))
    (hcs : create_stations d0 = .ok [s1, s2])
    (h1 : get_installations (fetchI s1.id) = .ok [ia])
    (h2 : get_installations (fetchI s2.id) = .ok [ib]) :
    get_stations fetchS fetchI
      = .ok [{ s1 with installations := s1.installations ++ [ia] },
             { s2 with installations := s2.installations ++ [ib] }]
    ∧ s1.add_installations (.pylist [.inst ia])
      = .ok { s1 with installations := s1.installations ++ [ia] } := by
  constructor
  · have hphase : stationsPhase fetchS = (.ok [s1, s2], [0]) := by
      have h := stationsPhase_ok fetchS 1 (fun _ => d0) (fun _ => [s1, s2]) le_rfl
        (fun p hp => by
          have hp0 : p = 0 := by omega
          subst hp0
          exact h0)
        (by simpa using htp) (fun p hp => hcs)
      simpa using h
    simp [get_stations, hphase, gatherTasks, h1, h2, Except.map,
      mergeInstallations_eq, List.zip_cons_cons]
  · exact add_installations_insts s1 [ia]

/-- Witness for C4: stations 400 and 401 receive `[instA]` and `[instB]`
respectively. -/
theorem station_installation_correlation_witness :
    get_stations (fun _ => .ok stPageAB) instFetchByIdW
      = .ok [{ stationA with installations := [instA] },
             { stationB with installations := [instB] }] := by
  have hA : get_installations (instFetchByIdW stationA.id) = .ok [instA] := by
    have h := get_installations_ok (instFetchByIdW stationA.id) 1
      (fun _ => instPageOneA) (fun _ => [instA]) le_rfl (fun p _ => rfl)
      (by simp [instPageOneA, pySubscript, lookupKey]) (fun p _ => rfl)
    simpa using h
  have hB : get_installations (instFetchByIdW stationB.id) = .ok [instB] := by
    have h := get_installations_ok (instFetchByIdW stationB.id) 1
      (fun _ => instPageOneB) (fun _ => [instB]) le_rfl (fun p _ => rfl)
      (by simp [instPageOneB, pySubscript, lookupKey]) (fun p _ => rfl)
    simpa using h
  have h := station_installation_correlation (fun _ => .ok stPageAB) instFetchByIdW
    stPageAB stationA stationB instA instB rfl rfl rfl hA hB
  exact h.1.trans rfl

/-- C8: if any station-page fetch inside `get_stations` fails (the
`except Exception as e: raise e` wrapper re-raises), `get_stations`
propagates that failure to its caller — shown for the page-0 fetch and
for a later page of a multi-page listing — and returns no partial
station list. -/
theorem station_page_failure_propagates
    (fetchS : Nat → Except PyExc JSON) (fetchI : JSON → Nat → Except PyExc JSON)
    (e : PyExc) :
    (fetchS 0 = .error e → get_stations fetchS fetchI = .error e)
    ∧ ∀ (d0 : JSON) (T : Nat) (ss0 : List Station),
        fetchS 0 = .ok d0 →
        pySubscript d0 "totalPages" = .ok (.num (T : Rat)) →
        create_stations d0 = .ok ss0 →
        2 ≤ T →
        fetchS 1 = .error e →
        get_stations fetchS fetchI = .error e := by
  constructor
  · intro h
    simp [get_stations, stationsPhase, h]
  · intro d0 T ss0 h0 htp hcs hT h1
    have hloop : stationsLoop fetchS (T : Rat) 1 = (.error e, [1]) := by
      rw [stationsLoop, dif_pos (by exact_mod_cast (show 1 < T by omega)), h1]
    simp [get_stations, stationsPhase, h0, htp, hcs, pyNumVal, hloop, Except.map]

/-- Witness for C8: a failing page-0 fetch and a failing page-1 fetch both
abort `get_stations` with the propagated error. -/
theorem station_page_failure_propagates_witness :
    get_stations (fun _ => .error (.exc "Failed to fetch data")) (fun _ _ => .ok .null)
      = .error (.exc "Failed to fetch data")
    ∧ get_stations stFailFetchW (fun _ _ => .ok .null)
      = .error (.exc "Failed to fetch data") := by
  constructor
  · exact (station_page_failure_propagates (fun _ => .error (.exc "Failed to fetch data"))
      (fun _ _ => .ok .null) (.exc "Failed to fetch data")).1 rfl
  · exact (station_page_failure_propagates stFailFetchW (fun _ _ => .ok .null)
      (.exc "Failed to fetch data")).2
      (.dict [("totalPages", .num 2), ("Lista stacji pomiarowych", .arr [stRecA])])
      2 [stationA] rfl (by simp [pySubscript, lookupKey]) rfl (by omega) rfl

/-- C1 (code bug): `fetch_data` fails by raising a plain
`Exception("Failed to fetch data")`, but `Station.get_installations`
catches only `requests.exceptions.HTTPError`, so when the first page
fetch of a station's installations fails, the error PROPAGATES instead of
producing the soft-fail empty list the `try/except` was written for (the
handler fires only for an exception class `fetch_data` never raises), and
the failure aborts the whole `get_stations` run. -/
theorem installations_soft_fail_code_bug :
    (fetch_data (fun _ => Response.errorStatus) 5).1 = .error (.exc "Failed to fetch data")
    ∧ get_installations (fun _ => .error (.exc "Failed to fetch data"))
        = .error (.exc "Failed to fetch data")
    ∧ get_installations (fun _ => .error (.exc "Failed to fetch data")) ≠ .ok []
    ∧ get_installations (fun _ => .error (.httpError "HTTP Error")) = .ok []
    ∧ get_stations (fun _ => .ok stPageOneA) (fun _ _ => .error (.exc "Failed to fetch data"))
        = .error (.exc "Failed to fetch data") := by
  refine ⟨?_, rfl, ?_, rfl, ?_⟩
  · exact congrArg Prod.fst (fetchGo_errorStatus _ 5 0 1 0 0 (by omega) rfl)
  · intro h
    exact Except.noConfusion h
  · have hphase : stationsPhase (fun _ => .ok stPageOneA) = (.ok [stationA], [0]) := by
      have h := stationsPhase_ok (fun _ => .ok stPageOneA) 1 (fun _ => stPageOneA)
        (fun _ => [stationA]) le_rfl (fun p hp => rfl)
        (by simp [stPageOneA, pySubscript, lookupKey]) (fun p hp => rfl)
      simpa using h
    simp [get_stations, hphase, gatherTasks, get_installations, giFetchPages]
